import Mathlib

/-!
# Shallow embedding of `src/Main.cpp` (OpenGL 3D-building demo)

The program is a single-file OpenGL demo: it initializes GLFW/GLAD, uploads a
hardcoded vertex/index buffer (a ground plane and two boxes), compiles a fixed
shader pair, loads one texture, and runs a main loop with a free-fly `Camera`,
an `L`-key light toggle and an `Escape`-key quit.

Floating-point values are modelled as real numbers (`ℝ`); the exact literal
vertex data is modelled over `ℚ` so that counts and bounds are decidable.
GLM vector/matrix operations used by the code (`dot`, `cross`, `normalize`,
`rotate`, `lookAt`) are embedded following the GLM sources (column-major
matrices, `m[col][row]` indexing).
-/

/-! ## GLM vector and matrix algebra -/

/-- `glm::vec3` over `ℝ`. -/
@[ext] structure Vec3 where
  x : ℝ
  y : ℝ
  z : ℝ

/-- `glm::vec2` over `ℝ`. -/
@[ext] structure Vec2 where
  x : ℝ
  y : ℝ

/-- `glm::vec4` over `ℝ`. -/
@[ext] structure Vec4 where
  x : ℝ
  y : ℝ
  z : ℝ
  w : ℝ

namespace Vec3

def zero : Vec3 := ⟨0, 0, 0⟩

def add (a b : Vec3) : Vec3 := ⟨a.x + b.x, a.y + b.y, a.z + b.z⟩

def sub (a b : Vec3) : Vec3 := ⟨a.x - b.x, a.y - b.y, a.z - b.z⟩

def smul (t : ℝ) (v : Vec3) : Vec3 := ⟨t * v.x, t * v.y, t * v.z⟩

/-- `glm::dot`. -/
def dot (a b : Vec3) : ℝ := a.x * b.x + a.y * b.y + a.z * b.z

/-- `glm::cross`. -/
def cross (a b : Vec3) : Vec3 :=
  ⟨a.y * b.z - a.z * b.y, a.z * b.x - a.x * b.z, a.x * b.y - a.y * b.x⟩

/-- Euclidean length, `glm::length`. -/
noncomputable def norm (v : Vec3) : ℝ := Real.sqrt (dot v v)

/-- `glm::normalize`: `v * inversesqrt(dot(v, v))`. -/
noncomputable def normalize (v : Vec3) : Vec3 := smul (1 / norm v) v

end Vec3

namespace Vec4

def add (a b : Vec4) : Vec4 := ⟨a.x + b.x, a.y + b.y, a.z + b.z, a.w + b.w⟩

def smul (t : ℝ) (v : Vec4) : Vec4 := ⟨t * v.x, t * v.y, t * v.z, t * v.w⟩

/-- Componentwise product (GLSL `vec4 * vec4`). -/
def mul (a b : Vec4) : Vec4 := ⟨a.x * b.x, a.y * b.y, a.z * b.z, a.w * b.w⟩

end Vec4

/-- `glm::mat4`, column-major: `ci` is column `i`, indexed `m[col][row]`. -/
@[ext] structure Mat4 where
  c0 : Vec4
  c1 : Vec4
  c2 : Vec4
  c3 : Vec4

/-- `glm::mat4(1.0f)`, the identity matrix. -/
def identity4 : Mat4 :=
  ⟨⟨1, 0, 0, 0⟩, ⟨0, 1, 0, 0⟩, ⟨0, 0, 1, 0⟩, ⟨0, 0, 0, 1⟩⟩

/-- `glm::radians`: degrees to radians. -/
noncomputable def radians (degrees : ℝ) : ℝ := degrees * (Real.pi / 180)

/-- `glm::rotate(m, angle, v)` following the GLM source: builds the axis-angle
rotation matrix `Rotate` from the normalized axis and composes it with `m`. -/
noncomputable def glmRotate (m : Mat4) (angle : ℝ) (v : Vec3) : Mat4 :=
  let c := Real.cos angle
  let s := Real.sin angle
  let axis := Vec3.normalize v
  let temp := Vec3.smul (1 - c) axis
  let r00 := c + temp.x * axis.x
  let r01 := temp.x * axis.y + s * axis.z
  let r02 := temp.x * axis.z - s * axis.y
  let r10 := temp.y * axis.x - s * axis.z
  let r11 := c + temp.y * axis.y
  let r12 := temp.y * axis.z + s * axis.x
  let r20 := temp.z * axis.x + s * axis.y
  let r21 := temp.z * axis.y - s * axis.x
  let r22 := c + temp.z * axis.z
  { c0 := Vec4.add (Vec4.add (Vec4.smul r00 m.c0) (Vec4.smul r01 m.c1)) (Vec4.smul r02 m.c2)
    c1 := Vec4.add (Vec4.add (Vec4.smul r10 m.c0) (Vec4.smul r11 m.c1)) (Vec4.smul r12 m.c2)
    c2 := Vec4.add (Vec4.add (Vec4.smul r20 m.c0) (Vec4.smul r21 m.c1)) (Vec4.smul r22 m.c2)
    c3 := m.c3 }

/-- `glm::lookAt` (right-handed variant used on desktop GL) following the GLM
source. -/
noncomputable def lookAt (eye center up : Vec3) : Mat4 :=
  let f := Vec3.normalize (Vec3.sub center eye)
  let s := Vec3.normalize (Vec3.cross f up)
  let u := Vec3.cross s f
  { c0 := ⟨s.x, u.x, -f.x, 0⟩
    c1 := ⟨s.y, u.y, -f.y, 0⟩
    c2 := ⟨s.z, u.z, -f.z, 0⟩
    c3 := ⟨-(Vec3.dot s eye), -(Vec3.dot u eye), Vec3.dot f eye, 1⟩ }

/-! ## GLFW key codes used by the program -/

def GLFW_KEY_ESCAPE : Nat := 256
def GLFW_KEY_W : Nat := 87
def GLFW_KEY_S : Nat := 83
def GLFW_KEY_A : Nat := 65
def GLFW_KEY_D : Nat := 68
def GLFW_KEY_Q : Nat := 81
def GLFW_KEY_E : Nat := 69
def GLFW_KEY_L : Nat := 76

/-! ## The `Camera` class (`src/Main.cpp` lines 138-191) -/

/-- State of the `Camera` class: public data members of `src/Main.cpp:138`. -/
structure Camera where
  Position : Vec3
  Front : Vec3
  Up : Vec3
  Right : Vec3
  WorldUp : Vec3
  Yaw : ℝ
  Pitch : ℝ
  MovementSpeed : ℝ
  MouseSensitivity : ℝ
  Zoom : ℝ

/-- The pre-normalization front vector of `Camera::updateCameraVectors`
(`src/Main.cpp:183-186`), computed from yaw and pitch. -/
noncomputable def frontOf (yaw pitch : ℝ) : Vec3 :=
  ⟨Real.cos (radians yaw) * Real.cos (radians pitch),
   Real.sin (radians pitch),
   Real.sin (radians yaw) * Real.cos (radians pitch)⟩

/-- `Camera::updateCameraVectors` (`src/Main.cpp:182-190`). -/
noncomputable def Camera.updateCameraVectors (c : Camera) : Camera :=
  let front := frontOf c.Yaw c.Pitch
  let newFront := Vec3.normalize front
  let newRight := Vec3.normalize (Vec3.cross newFront c.WorldUp)
  let newUp := Vec3.normalize (Vec3.cross newRight newFront)
  { c with Front := newFront, Right := newRight, Up := newUp }

/-- The `Camera` constructor (`src/Main.cpp:152-159`): member initializers,
body assignments, then `updateCameraVectors()`.  The C++ leaves `Up` and
`Right` uninitialized before `updateCameraVectors` overwrites them; the model
starts them at `Vec3.zero`. -/
noncomputable def cameraCtor (position up : Vec3) (yaw pitch : ℝ) : Camera :=
  Camera.updateCameraVectors
    { Position := position
      Front := ⟨0, 0, -1⟩
      Up := Vec3.zero
      Right := Vec3.zero
      WorldUp := up
      Yaw := yaw
      Pitch := pitch
      MovementSpeed := 2.5
      MouseSensitivity := 0.1
      Zoom := 45 }

/-- `Camera::GetViewMatrix` (`src/Main.cpp:161-163`). -/
noncomputable def Camera.GetViewMatrix (c : Camera) : Mat4 :=
  lookAt c.Position (Vec3.add c.Position c.Front) c.Up

/-- `Camera::ProcessKeyboard` (`src/Main.cpp:165-179`): a chain of six
independent `if` statements, each adjusting `Position` by
`velocity = MovementSpeed * deltaTime` along a basis vector. -/
noncomputable def Camera.ProcessKeyboard (direction : Nat) (deltaTime : ℝ)
    (c : Camera) : Camera :=
  let velocity := c.MovementSpeed * deltaTime
  let c := if direction = GLFW_KEY_W then
    { c with Position := Vec3.add c.Position (Vec3.smul velocity c.Front) } else c
  let c := if direction = GLFW_KEY_S then
    { c with Position := Vec3.sub c.Position (Vec3.smul velocity c.Front) } else c
  let c := if direction = GLFW_KEY_A then
    { c with Position := Vec3.sub c.Position (Vec3.smul velocity c.Right) } else c
  let c := if direction = GLFW_KEY_D then
    { c with Position := Vec3.add c.Position (Vec3.smul velocity c.Right) } else c
  let c := if direction = GLFW_KEY_Q then
    { c with Position := Vec3.add c.Position (Vec3.smul velocity c.Up) } else c
  let c := if direction = GLFW_KEY_E then
    { c with Position := Vec3.sub c.Position (Vec3.smul velocity c.Up) } else c
  c

/-! ## Hardcoded geometry (`src/Main.cpp` lines 198-247) -/

/-- The `vertices` array (`src/Main.cpp:198-226`): 8 floats per vertex
(position, color, texture coordinates), flattened exactly as in the source. -/
def verticesData : List ℚ := [
  -- Surface
  -5, 0, -5,  0, 1, 0,  0, 0,
   5, 0, -5,  0, 1, 0,  0, 0,
   5, 0,  5,  0, 1, 0,  0, 0,
  -5, 0,  5,  0, 1, 0,  0, 0,
  -- Building 1
  -1, 0, -1,  1, 1, 1,  0, 1,
  -1, 2, -1,  1, 1, 1,  0, 0,
   1, 2, -1,  1, 1, 1,  1, 0,
   1, 0, -1,  1, 1, 1,  1, 1,
  -1, 0,  1,  1, 1, 1,  0, 1,
  -1, 2,  1,  1, 1, 1,  0, 0,
   1, 2,  1,  1, 1, 1,  1, 0,
   1, 0,  1,  1, 1, 1,  1, 1,
  -- Building 2
   2, 0,  2,  1, 1, 1,  0, 1,
   2, 3,  2,  1, 1, 1,  0, 0,
   4, 3,  2,  1, 1, 1,  1, 0,
   4, 0,  2,  1, 1, 1,  1, 1,
   2, 0,  4,  1, 1, 1,  0, 1,
   2, 3,  4,  1, 1, 1,  0, 0,
   4, 3,  4,  1, 1, 1,  1, 0,
   4, 0,  4,  1, 1, 1,  1, 1]

/-- The `indices` array (`src/Main.cpp:228-247`). -/
def indicesData : List Nat := [
  -- Surface
  0, 1, 2, 2, 3, 0,
  -- Building 1
  4, 5, 6, 6, 7, 4,
  4, 5, 9, 9, 8, 4,
  5, 6, 10, 10, 9, 5,
  6, 7, 11, 11, 10, 6,
  7, 4, 8, 8, 11, 7,
  8, 9, 10, 10, 11, 8,
  -- Building 2
  12, 13, 14, 14, 15, 12,
  12, 13, 17, 17, 16, 12,
  13, 14, 18, 18, 17, 13,
  14, 15, 19, 19, 18, 14,
  15, 12, 16, 16, 19, 15,
  16, 17, 18, 18, 19, 16]

/-- `sizeof(vertices) / sizeof(float)` is the length of the flattened array;
8 floats per vertex. -/
def floatsPerVertex : Nat := 8

/-- The count argument of the `glDrawElements` call (`src/Main.cpp:366`):
`sizeof(indices) / sizeof(indices[0])`, i.e. the number of array elements. -/
def drawElementsCount : Nat := indicesData.length

/-! ## Error handling (`initGLFWandGLAD`, `createShaderProgram`, texture load) -/

def EXIT_FAILURE : Nat := 1

/-- How a phase of the program ends: it either continues, or terminates the
process with an exit code (`exit(...)` / `std::exit`). -/
inductive PhaseOutcome where
  | continues : PhaseOutcome
  | exits (code : Nat) : PhaseOutcome
deriving DecidableEq

/-- Observable effect of a phase: the messages it writes to `std::cerr`, in
order, and whether it terminates the process. -/
structure PhaseTrace where
  stderrMsgs : List String
  outcome : PhaseOutcome
deriving DecidableEq

/-- `initGLFWandGLAD` (`src/Main.cpp:102-137`), parameterized by whether each
external call succeeds: `glfwInit`, `glfwCreateWindow`, `gladLoadGLLoader`.
Each failure logs to `std::cerr` and calls `exit(EXIT_FAILURE)`. -/
def initGLFWandGLAD (glfwInitOk createWindowOk gladOk : Bool) : PhaseTrace :=
  if !glfwInitOk then
    ⟨["Failed to initialize GLFW"], .exits EXIT_FAILURE⟩
  else if !createWindowOk then
    ⟨["Failed to create GLFW window"], .exits EXIT_FAILURE⟩
  else if !gladOk then
    ⟨["Failed to initialize GLAD"], .exits EXIT_FAILURE⟩
  else
    ⟨[], .continues⟩

/-- `createShaderProgram` (`src/Main.cpp:55-100`), parameterized by the three
GL status queries (vertex compile, fragment compile, link).  Each failure
logs to `std::cerr`; the function always returns the program handle. -/
def createShaderProgram (vertexOk fragmentOk linkOk : Bool) : PhaseTrace :=
  ⟨(if !vertexOk then ["ERROR::SHADER::VERTEX::COMPILATION_FAILED"] else []) ++
   (if !fragmentOk then ["ERROR::SHADER::FRAGMENT::COMPILATION_FAILED"] else []) ++
   (if !linkOk then ["ERROR::SHADER::PROGRAM::LINKING_FAILED"] else []),
   .continues⟩

/-- The texture-loading block of `main` (`src/Main.cpp:290-299`),
parameterized by whether `stbi_load` returns data.  On failure it logs to
`std::cerr` and execution continues. -/
def loadTexture (dataOk : Bool) : PhaseTrace :=
  if dataOk then ⟨[], .continues⟩
  else ⟨["Failed to load texture"], .continues⟩

/-! ## The fragment shader (`fragmentShaderSource`, `src/Main.cpp:35-54`) -/

/-- The fragment shader `main`: `tex` models the bound `texture1` sampler as a
function from texture coordinates to sampled color. -/
noncomputable def fragmentShader (tex : Vec2 → Vec4) (lightOn : Bool)
    (TexCoord : Vec2) (ourColor : Vec3) : Vec4 :=
  let texColor := tex TexCoord
  if lightOn then
    Vec4.mul texColor ⟨ourColor.x, ourColor.y, ourColor.z, 1⟩
  else
    ⟨ourColor.x, ourColor.y, ourColor.z, 1⟩

/-! ## GL buffer objects and the per-frame state of `main` -/

/-- The GL buffer objects of `main`: contents of VBO and EBO (if uploaded)
and how many `glBufferData` uploads each has received. -/
structure GLBuffers where
  vbo : Option (List ℚ)
  ebo : Option (List Nat)
  vboUploads : Nat
  eboUploads : Nat
deriving DecidableEq

/-- A GL buffer object just generated by `glGenBuffers`: no data yet. -/
def emptyGLBuffers : GLBuffers := ⟨none, none, 0, 0⟩

/-- `glBufferData(GL_ARRAY_BUFFER, ...)` with the `vertices` array bound to
the VBO (`src/Main.cpp:257-258`). -/
def bufferDataVBO (data : List ℚ) (g : GLBuffers) : GLBuffers :=
  { g with vbo := some data, vboUploads := g.vboUploads + 1 }

/-- `glBufferData(GL_ELEMENT_ARRAY_BUFFER, ...)` with the `indices` array
bound to the EBO (`src/Main.cpp:260-261`). -/
def bufferDataEBO (data : List Nat) (g : GLBuffers) : GLBuffers :=
  { g with ebo := some data, eboUploads := g.eboUploads + 1 }

/-- The one-time geometry upload in `main` before the loop
(`src/Main.cpp:255-261`). -/
def setupBuffers (g : GLBuffers) : GLBuffers :=
  bufferDataEBO indicesData (bufferDataVBO verticesData g)

/-- The per-iteration keyboard/time observations of the main loop: one
`glfwGetKey` result per polled key, the `glfwGetTime()` sample taken for
`deltaTime` (`src/Main.cpp:324`) and the later sample taken for the model
matrix (`src/Main.cpp:361`). -/
structure Input where
  esc : Bool
  keyW : Bool
  keyS : Bool
  keyA : Bool
  keyD : Bool
  keyQ : Bool
  keyE : Bool
  keyL : Bool
  time : ℝ
  timeAtModel : ℝ

/-- The mutable state of `main` observable across loop iterations. -/
structure MainState where
  shouldClose : Bool
  lightOn : Bool
  camera : Camera
  deltaTime : ℝ
  lastFrame : ℝ
  gl : GLBuffers
  uniformLightOn : Bool
  uniformView : Option Mat4
  uniformModel : Option Mat4
  lastDrawCount : Option Nat
  cleanedUp : Bool

/-- The model matrix computed each frame (`src/Main.cpp:360-361`):
`glm::rotate(mat4(1), t * radians(50), vec3(0,1,0))` at time `t`. -/
noncomputable def modelMatrixAt (t : ℝ) : Mat4 :=
  glmRotate identity4 (t * radians 50) ⟨0, 1, 0⟩

/-- One iteration of the main loop body (`src/Main.cpp:322-371`), in source
order: delta time, Escape check, WASDQE camera movement, `L` light toggle,
then the render block (view uniform, model uniform, draw call). -/
noncomputable def mainLoopStep (inp : Input) (s : MainState) : MainState :=
  -- Calculate delta time
  let deltaTime := inp.time - s.lastFrame
  let lastFrame := inp.time
  -- Input: Escape sets the window should-close flag
  let shouldClose := if inp.esc then true else s.shouldClose
  -- Camera controls
  let cam := s.camera
  let cam := if inp.keyW then Camera.ProcessKeyboard GLFW_KEY_W deltaTime cam else cam
  let cam := if inp.keyS then Camera.ProcessKeyboard GLFW_KEY_S deltaTime cam else cam
  let cam := if inp.keyA then Camera.ProcessKeyboard GLFW_KEY_A deltaTime cam else cam
  let cam := if inp.keyD then Camera.ProcessKeyboard GLFW_KEY_D deltaTime cam else cam
  let cam := if inp.keyQ then Camera.ProcessKeyboard GLFW_KEY_Q deltaTime cam else cam
  let cam := if inp.keyE then Camera.ProcessKeyboard GLFW_KEY_E deltaTime cam else cam
  -- Toggle light: invert, then upload the new value to the uniform
  let lightOn := if inp.keyL then !s.lightOn else s.lightOn
  let uniformLightOn := if inp.keyL then !s.lightOn else s.uniformLightOn
  -- Render: view and model uniforms, then the indexed draw call
  let uniformView := some cam.GetViewMatrix
  let uniformModel := some (modelMatrixAt inp.timeAtModel)
  let lastDrawCount := some drawElementsCount
  { shouldClose := shouldClose
    lightOn := lightOn
    camera := cam
    deltaTime := deltaTime
    lastFrame := lastFrame
    gl := s.gl
    uniformLightOn := uniformLightOn
    uniformView := uniformView
    uniformModel := uniformModel
    lastDrawCount := lastDrawCount
    cleanedUp := s.cleanedUp }

/-- The state of `main` after setup and before the loop
(`src/Main.cpp:193-319`): buffers uploaded once, `lightOn = true` uploaded to
its uniform, camera constructed at `(0,0,5)` looking down `-Z`. -/
noncomputable def initialMainState : MainState :=
  { shouldClose := false
    lightOn := true
    camera := cameraCtor ⟨0, 0, 5⟩ ⟨0, 1, 0⟩ (-90) 0
    deltaTime := 0
    lastFrame := 0
    gl := setupBuffers emptyGLBuffers
    uniformLightOn := true
    uniformView := none
    uniformModel := none
    lastDrawCount := none
    cleanedUp := false }

/-- The `while (!glfwWindowShouldClose(window))` loop (`src/Main.cpp:322`)
over a finite stream of per-iteration inputs: the guard is checked before
each iteration. -/
noncomputable def mainLoop : List Input → MainState → MainState
  | [], s => s
  | inp :: rest, s => if s.shouldClose then s else mainLoop rest (mainLoopStep inp s)

/-- The cleanup block after the loop (`src/Main.cpp:373-379`): delete GL
objects and terminate GLFW. -/
def cleanup (s : MainState) : MainState := { s with cleanedUp := true }

/-- `main` after initialization: run the loop, clean up, `return 0`
(`src/Main.cpp:380`). -/
noncomputable def runMain (inputs : List Input) : MainState × Nat :=
  (cleanup (mainLoop inputs initialMainState), 0)

/-! ## Predicates and concrete instances used by the verification -/

/-- Three vectors forming an orthonormal triple. -/
def orthonormalTriple (F R U : Vec3) : Prop :=
  F.norm = 1 ∧ R.norm = 1 ∧ U.norm = 1 ∧
  Vec3.dot F R = 0 ∧ Vec3.dot F U = 0 ∧ Vec3.dot R U = 0

/-- The `Front`, `Right`, `Up` members of a camera form an orthonormal triple. -/
def orthonormalFRU (c : Camera) : Prop :=
  orthonormalTriple c.Front c.Right c.Up

/-- A concrete camera state (yaw 0, pitch 0, world up `+Y`) used to witness
the orthonormality theorem on an explicit input. -/
noncomputable def testCamera : Camera :=
  { Position := Vec3.zero
    Front := ⟨0, 0, -1⟩
    Up := Vec3.zero
    Right := Vec3.zero
    WorldUp := ⟨0, 1, 0⟩
    Yaw := 0
    Pitch := 0
    MovementSpeed := 2.5
    MouseSensitivity := 0.1
    Zoom := 45 }

/-- Modelled from the spec: the rotation of the whole scene about the world
`Y` axis by angle `θ` — the standard column-major rotation matrix fixing the
`Y` axis.  Used to compare the `glm::rotate` call of the code against the claimed
behaviour. -/
noncomputable def rotationAboutWorldY (θ : ℝ) : Mat4 :=
  { c0 := ⟨Real.cos θ, 0, -Real.sin θ, 0⟩
    c1 := ⟨0, 1, 0, 0⟩
    c2 := ⟨Real.sin θ, 0, Real.cos θ, 0⟩
    c3 := ⟨0, 0, 0, 1⟩ }

/-- A concrete loop input with only the Escape key pressed. -/
def escapeOnlyInput : Input :=
  { esc := true, keyW := false, keyS := false, keyA := false, keyD := false
    keyQ := false, keyE := false, keyL := false, time := 0, timeAtModel := 0 }

/-! ## Vector algebra lemmas -/

namespace Vec3

theorem dot_comm (a b : Vec3) : dot a b = dot b a := by
  simp only [dot]; ring

theorem dot_self_nonneg (v : Vec3) : 0 ≤ dot v v := by
  simp only [dot]
  nlinarith [mul_self_nonneg v.x, mul_self_nonneg v.y, mul_self_nonneg v.z]

theorem dot_self_eq_zero {v : Vec3} : dot v v = 0 ↔ v = zero := by
  constructor
  · intro h
    simp only [dot] at h
    have hx : v.x * v.x = 0 := by
      nlinarith [mul_self_nonneg v.x, mul_self_nonneg v.y, mul_self_nonneg v.z]
    have hy : v.y * v.y = 0 := by
      nlinarith [mul_self_nonneg v.x, mul_self_nonneg v.y, mul_self_nonneg v.z]
    have hz : v.z * v.z = 0 := by
      nlinarith [mul_self_nonneg v.x, mul_self_nonneg v.y, mul_self_nonneg v.z]
    ext
    · exact mul_self_eq_zero.mp hx
    · exact mul_self_eq_zero.mp hy
    · exact mul_self_eq_zero.mp hz
  · intro h
    subst h
    simp [dot, zero]

theorem norm_nonneg (v : Vec3) : 0 ≤ norm v := Real.sqrt_nonneg _

theorem norm_eq_zero {v : Vec3} : norm v = 0 ↔ v = zero := by
  rw [norm, Real.sqrt_eq_zero (dot_self_nonneg v)]
  exact dot_self_eq_zero

theorem norm_pos {v : Vec3} (h : v ≠ zero) : 0 < norm v :=
  lt_of_le_of_ne (norm_nonneg v) (fun h0 => h (norm_eq_zero.mp h0.symm))

theorem norm_sq (v : Vec3) : norm v ^ 2 = dot v v :=
  Real.sq_sqrt (dot_self_nonneg v)

theorem norm_smul (t : ℝ) (v : Vec3) : norm (smul t v) = |t| * norm v := by
  simp only [norm, smul, dot]
  rw [show t * v.x * (t * v.x) + t * v.y * (t * v.y) + t * v.z * (t * v.z)
        = t ^ 2 * (v.x * v.x + v.y * v.y + v.z * v.z) by ring]
  rw [Real.sqrt_mul (sq_nonneg t), Real.sqrt_sq_eq_abs]

theorem norm_normalize {v : Vec3} (h : v ≠ zero) : norm (normalize v) = 1 := by
  have hpos := norm_pos h
  rw [normalize, norm_smul, abs_of_pos (by positivity)]
  field_simp

theorem cross_smul_left (t : ℝ) (a b : Vec3) :
    cross (smul t a) b = smul t (cross a b) := by
  ext <;> (simp only [cross, smul]; ring)

theorem smul_eq_zero_iff {t : ℝ} (ht : t ≠ 0) {v : Vec3} :
    smul t v = zero ↔ v = zero := by
  constructor
  · intro h
    have hx := congrArg Vec3.x h
    have hy := congrArg Vec3.y h
    have hz := congrArg Vec3.z h
    simp only [smul, zero, mul_eq_zero] at hx hy hz
    ext <;> simp [zero] <;> tauto
  · intro h
    subst h
    simp [smul, zero]

theorem dot_cross_left (a b : Vec3) : dot (cross a b) a = 0 := by
  simp only [dot, cross]; ring

theorem dot_cross_right (a b : Vec3) : dot (cross a b) b = 0 := by
  simp only [dot, cross]; ring

theorem dot_normalize_left (a b : Vec3) :
    dot (normalize a) b = (1 / norm a) * dot a b := by
  simp only [normalize, smul, dot]; ring

theorem dot_normalize_right (a b : Vec3) :
    dot a (normalize b) = (1 / norm b) * dot a b := by
  simp only [normalize, smul, dot]; ring

/-- The Lagrange identity specialized to the cross product. -/
theorem dot_cross_self (a b : Vec3) :
    dot (cross a b) (cross a b) = dot a a * dot b b - dot a b ^ 2 := by
  simp only [dot, cross]; ring

theorem normalize_eq (v : Vec3) : normalize v = smul (1 / norm v) v := rfl

end Vec3

/-! ## Orthonormality of the camera basis -/

/-- The normalize/cross/normalize cascade of `updateCameraVectors` produces an
orthonormal triple whenever the raw front vector is nonzero and not parallel
to the world-up vector. -/
theorem orthonormal_triple_of_cross_ne (f w : Vec3) (hf : f ≠ Vec3.zero)
    (hfw : Vec3.cross f w ≠ Vec3.zero) :
    orthonormalTriple (Vec3.normalize f)
      (Vec3.normalize (Vec3.cross (Vec3.normalize f) w))
      (Vec3.normalize (Vec3.cross
        (Vec3.normalize (Vec3.cross (Vec3.normalize f) w))
        (Vec3.normalize f))) := by
  set F := Vec3.normalize f with hFdef
  set G := Vec3.cross F w with hGdef
  have hGne : G ≠ Vec3.zero := by
    rw [hGdef, hFdef, Vec3.normalize_eq, Vec3.cross_smul_left]
    intro h
    exact hfw ((Vec3.smul_eq_zero_iff
      (one_div_ne_zero (ne_of_gt (Vec3.norm_pos hf)))).mp h)
  set R := Vec3.normalize G with hRdef
  set K := Vec3.cross R F with hKdef
  have hnF : F.norm = 1 := Vec3.norm_normalize hf
  have hnR : R.norm = 1 := Vec3.norm_normalize hGne
  have hFG : Vec3.dot F G = 0 := by
    rw [hGdef, Vec3.dot_comm]
    exact Vec3.dot_cross_left F w
  have hFR : Vec3.dot F R = 0 := by
    rw [hRdef, Vec3.dot_normalize_right, hFG, mul_zero]
  have hdFF : Vec3.dot F F = 1 := by rw [← Vec3.norm_sq, hnF]; norm_num
  have hdRR : Vec3.dot R R = 1 := by rw [← Vec3.norm_sq, hnR]; norm_num
  have hdRF : Vec3.dot R F = 0 := by rw [Vec3.dot_comm]; exact hFR
  have hKK : Vec3.dot K K = 1 := by
    rw [hKdef, Vec3.dot_cross_self, hdRR, hdFF, hdRF]
    norm_num
  have hKne : K ≠ Vec3.zero := by
    intro h
    rw [h] at hKK
    simp [Vec3.dot, Vec3.zero] at hKK
  have hnU : (Vec3.normalize K).norm = 1 := Vec3.norm_normalize hKne
  have hFU : Vec3.dot F (Vec3.normalize K) = 0 := by
    have hFK : Vec3.dot F K = 0 := by
      rw [hKdef, Vec3.dot_comm]
      exact Vec3.dot_cross_right R F
    rw [Vec3.dot_normalize_right, hFK, mul_zero]
  have hRU : Vec3.dot R (Vec3.normalize K) = 0 := by
    have hRK : Vec3.dot R K = 0 := by
      rw [hKdef, Vec3.dot_comm]
      exact Vec3.dot_cross_left R F
    rw [Vec3.dot_normalize_right, hRK, mul_zero]
  exact ⟨hnF, hnR, hnU, hFR, hFU, hRU⟩

/-- `updateCameraVectors` yields an orthonormal basis under the claimed
hypotheses. -/
theorem updateCameraVectors_orthonormalFRU (c : Camera)
    (hfront : frontOf c.Yaw c.Pitch ≠ Vec3.zero)
    (hpar : Vec3.cross (frontOf c.Yaw c.Pitch) c.WorldUp ≠ Vec3.zero) :
    orthonormalFRU (Camera.updateCameraVectors c) := by
  exact orthonormal_triple_of_cross_ne (frontOf c.Yaw c.Pitch) c.WorldUp
    hfront hpar

/-! ## Claim theorems -/

/-- Claim C1: for every camera state in which the front vector computed from
`Yaw` and `Pitch` is nonzero and not parallel to `WorldUp`, after
`updateCameraVectors` runs — including at construction, where the constructor
ends by calling it — the vectors `Front`, `Right` and `Up` are each unit
length and pairwise orthogonal. -/
theorem C1_camera_basis_orthonormal (c : Camera)
    (hfront : frontOf c.Yaw c.Pitch ≠ Vec3.zero)
    (hpar : Vec3.cross (frontOf c.Yaw c.Pitch) c.WorldUp ≠ Vec3.zero) :
    orthonormalFRU (Camera.updateCameraVectors c) ∧
    orthonormalFRU (cameraCtor c.Position c.WorldUp c.Yaw c.Pitch) :=
  ⟨updateCameraVectors_orthonormalFRU c hfront hpar,
   updateCameraVectors_orthonormalFRU
     { Position := c.Position
       Front := ⟨0, 0, -1⟩
       Up := Vec3.zero
       Right := Vec3.zero
       WorldUp := c.WorldUp
       Yaw := c.Yaw
       Pitch := c.Pitch
       MovementSpeed := 2.5
       MouseSensitivity := 0.1
       Zoom := 45 } hfront hpar⟩

/-- Witness for C1 at the concrete camera `testCamera` (yaw 0, pitch 0,
world up `+Y`): both hypotheses hold there and the orthonormality conclusion
follows by the theorem. -/
theorem C1_camera_basis_orthonormal_witness :
    (frontOf testCamera.Yaw testCamera.Pitch ≠ Vec3.zero ∧
     Vec3.cross (frontOf testCamera.Yaw testCamera.Pitch) testCamera.WorldUp
       ≠ Vec3.zero) ∧
    (orthonormalFRU (Camera.updateCameraVectors testCamera) ∧
     orthonormalFRU (cameraCtor testCamera.Position testCamera.WorldUp
       testCamera.Yaw testCamera.Pitch)) := by
  have h1 : frontOf testCamera.Yaw testCamera.Pitch ≠ Vec3.zero := by
    simp [testCamera, frontOf, radians, Vec3.zero, Vec3.mk.injEq]
  have h2 : Vec3.cross (frontOf testCamera.Yaw testCamera.Pitch)
      testCamera.WorldUp ≠ Vec3.zero := by
    simp [testCamera, frontOf, radians, Vec3.cross, Vec3.zero, Vec3.mk.injEq]
  exact ⟨⟨h1, h2⟩, C1_camera_basis_orthonormal testCamera h1 h2⟩

/-- Claim C2: every failure among context creation (GLFW init, window
creation, GLAD loading), shader compilation/linking, and texture loading
writes a message to standard error; exactly the context-creation failures
additionally terminate the process with `EXIT_FAILURE`, while shader and
texture failures only log and execution continues. -/
theorem C2_failure_logging_and_termination
    (glfwInitOk createWindowOk gladOk vertexOk fragmentOk linkOk dataOk : Bool) :
    ((initGLFWandGLAD glfwInitOk createWindowOk gladOk).outcome
        = .exits EXIT_FAILURE
      ↔ (glfwInitOk = false ∨ createWindowOk = false ∨ gladOk = false)) ∧
    ((initGLFWandGLAD glfwInitOk createWindowOk gladOk).stderrMsgs ≠ []
      ↔ (glfwInitOk = false ∨ createWindowOk = false ∨ gladOk = false)) ∧
    ((createShaderProgram vertexOk fragmentOk linkOk).stderrMsgs ≠ []
      ↔ (vertexOk = false ∨ fragmentOk = false ∨ linkOk = false)) ∧
    (createShaderProgram vertexOk fragmentOk linkOk).outcome = .continues ∧
    ((loadTexture dataOk).stderrMsgs ≠ [] ↔ dataOk = false) ∧
    (loadTexture dataOk).outcome = .continues := by
  cases glfwInitOk <;> cases createWindowOk <;> cases gladOk <;>
    cases vertexOk <;> cases fragmentOk <;> cases linkOk <;> cases dataOk <;>
    simp [initGLFWandGLAD, createShaderProgram, loadTexture]

/-- Claim C3: in every main-loop iteration, if the `L` key is reported
pressed the `lightOn` flag is inverted and the shader uniform is set to the
new value; if `L` is not pressed, `lightOn` is unchanged.  `lightOn` starts
as `true`. -/
theorem C3_light_toggle (inp : Input) (s : MainState) :
    (mainLoopStep inp s).lightOn
      = (if inp.keyL then !s.lightOn else s.lightOn) ∧
    (mainLoopStep inp s).uniformLightOn
      = (if inp.keyL then !s.lightOn else s.uniformLightOn) ∧
    initialMainState.lightOn = true :=
  ⟨rfl, rfl, rfl⟩

/-- Claim C4: for every `deltaTime` and camera state, `ProcessKeyboard`
updates `Position` by `velocity = MovementSpeed * deltaTime` along the matching
basis vector (`W`/`S` along `Front`, `A`/`D` along `Right`, `Q`/`E` along
`Up`), and the constructor sets `MovementSpeed = 2.5`. -/
theorem C4_process_keyboard_velocity (c : Camera) (dt : ℝ) :
    (Camera.ProcessKeyboard GLFW_KEY_W dt c).Position
      = Vec3.add c.Position (Vec3.smul (c.MovementSpeed * dt) c.Front) ∧
    (Camera.ProcessKeyboard GLFW_KEY_S dt c).Position
      = Vec3.sub c.Position (Vec3.smul (c.MovementSpeed * dt) c.Front) ∧
    (Camera.ProcessKeyboard GLFW_KEY_A dt c).Position
      = Vec3.sub c.Position (Vec3.smul (c.MovementSpeed * dt) c.Right) ∧
    (Camera.ProcessKeyboard GLFW_KEY_D dt c).Position
      = Vec3.add c.Position (Vec3.smul (c.MovementSpeed * dt) c.Right) ∧
    (Camera.ProcessKeyboard GLFW_KEY_Q dt c).Position
      = Vec3.add c.Position (Vec3.smul (c.MovementSpeed * dt) c.Up) ∧
    (Camera.ProcessKeyboard GLFW_KEY_E dt c).Position
      = Vec3.sub c.Position (Vec3.smul (c.MovementSpeed * dt) c.Up) ∧
    (∀ (p u : Vec3) (yaw pitch : ℝ),
      (cameraCtor p u yaw pitch).MovementSpeed = 2.5) := by
  refine ⟨?_, ?_, ?_, ?_, ?_, ?_, fun p u yaw pitch => rfl⟩ <;>
    simp [Camera.ProcessKeyboard, GLFW_KEY_W, GLFW_KEY_S, GLFW_KEY_A,
      GLFW_KEY_D, GLFW_KEY_Q, GLFW_KEY_E]

set_option maxRecDepth 4000 in
/-- Claim C5: the vertex array defines exactly 20 vertices (160 floats at 8
floats per vertex), the index array has exactly 78 entries, every index is
strictly less than 20, and the draw call renders exactly 78 indices. -/
theorem C5_geometry_counts :
    verticesData.length = 160 ∧
    verticesData.length = 20 * floatsPerVertex ∧
    indicesData.length = 78 ∧
    indicesData.all (fun i => decide (i < 20)) = true ∧
    drawElementsCount = 78 := by
  refine ⟨rfl, rfl, rfl, by decide, rfl⟩

/-- Claim C6: the vertex and index buffers are each uploaded exactly once,
before the main loop starts, and no loop iteration changes the buffer
contents or upload counts. -/
theorem C6_buffers_static (inp : Input) (s : MainState) :
    (setupBuffers emptyGLBuffers).vbo = some verticesData ∧
    (setupBuffers emptyGLBuffers).ebo = some indicesData ∧
    (setupBuffers emptyGLBuffers).vboUploads = 1 ∧
    (setupBuffers emptyGLBuffers).eboUploads = 1 ∧
    initialMainState.gl = setupBuffers emptyGLBuffers ∧
    (mainLoopStep inp s).gl = s.gl :=
  ⟨rfl, rfl, rfl, rfl, rfl, rfl⟩

/-- Claim C7: an iteration whose input reports Escape pressed sets the
should-close flag (and no other keyboard input sets it), the loop guard then
fails at the next check so the loop exits, cleanup runs, and `main` returns
0. -/
theorem C7_escape_quits (inp : Input) (s : MainState) (rest inputs : List Input) :
    (mainLoopStep inp s).shouldClose = (inp.esc || s.shouldClose) ∧
    (inp.esc = true →
      mainLoop rest (mainLoopStep inp s) = mainLoopStep inp s) ∧
    (runMain inputs).2 = 0 ∧
    (runMain inputs).1.cleanedUp = true := by
  have hsc : (mainLoopStep inp s).shouldClose = (inp.esc || s.shouldClose) := by
    show (if inp.esc then true else s.shouldClose) = (inp.esc || s.shouldClose)
    cases inp.esc <;> simp
  refine ⟨hsc, ?_, rfl, rfl⟩
  intro hesc
  cases rest with
  | nil => rfl
  | cons a l =>
    show (if (mainLoopStep inp s).shouldClose then _ else _) = _
    rw [hsc, hesc]
    simp

/-- Witness for C7 at the concrete input `escapeOnlyInput` (Escape pressed)
from the initial state: the loop makes no further iterations. -/
theorem C7_escape_quits_witness :
    escapeOnlyInput.esc = true ∧
    mainLoop [escapeOnlyInput] (mainLoopStep escapeOnlyInput initialMainState)
      = mainLoopStep escapeOnlyInput initialMainState :=
  ⟨rfl, (C7_escape_quits escapeOnlyInput initialMainState
    [escapeOnlyInput] []).2.1 rfl⟩

/-- Claim C8: when the `lightOn` uniform is true the fragment output is the
texture sample multiplied componentwise by `vec4(ourColor, 1.0)`; when it is
false the output is `vec4(ourColor, 1.0)` with no texture contribution. -/
theorem C8_fragment_shader_light (tex : Vec2 → Vec4) (uv : Vec2) (c : Vec3) :
    fragmentShader tex true uv c
      = Vec4.mul (tex uv) ⟨c.x, c.y, c.z, 1⟩ ∧
    fragmentShader tex false uv c = ⟨c.x, c.y, c.z, 1⟩ :=
  ⟨rfl, rfl⟩

/-- Claim C9: `Camera::ProcessKeyboard` modifies only the `Position` field:
for every direction code and `deltaTime`, all other camera fields are
unchanged. -/
theorem C9_process_keyboard_only_position (direction : Nat) (dt : ℝ)
    (c : Camera) :
    (Camera.ProcessKeyboard direction dt c).Front = c.Front ∧
    (Camera.ProcessKeyboard direction dt c).Up = c.Up ∧
    (Camera.ProcessKeyboard direction dt c).Right = c.Right ∧
    (Camera.ProcessKeyboard direction dt c).WorldUp = c.WorldUp ∧
    (Camera.ProcessKeyboard direction dt c).Yaw = c.Yaw ∧
    (Camera.ProcessKeyboard direction dt c).Pitch = c.Pitch ∧
    (Camera.ProcessKeyboard direction dt c).MovementSpeed = c.MovementSpeed ∧
    (Camera.ProcessKeyboard direction dt c).MouseSensitivity
      = c.MouseSensitivity ∧
    (Camera.ProcessKeyboard direction dt c).Zoom = c.Zoom := by
  simp only [Camera.ProcessKeyboard]
  split <;> split <;> split <;> split <;> split <;> split <;> simp

/-- Claim C10: every frame sets the model matrix to
`glm::rotate(mat4(1), t * radians(50), vec3(0,1,0))` where `t` is the elapsed
time since program start; this equals the rotation about the world `Y` axis
by `t * radians(50)` (50 degrees per second), and the scene is not
stationary: at `t = 18/5` seconds the matrix differs from the identity. -/
theorem C10_model_matrix_rotates (inp : Input) (s : MainState) (t : ℝ) :
    (mainLoopStep inp s).uniformModel = some (modelMatrixAt inp.timeAtModel) ∧
    modelMatrixAt t = rotationAboutWorldY (t * radians 50) ∧
    modelMatrixAt (18 / 5) ≠ identity4 := by
  have hnorm : Vec3.normalize ⟨0, 1, 0⟩ = ⟨0, 1, 0⟩ := by
    simp [Vec3.normalize, Vec3.norm, Vec3.dot, Vec3.smul, Real.sqrt_one]
  have h2 : ∀ θ : ℝ, glmRotate identity4 θ ⟨0, 1, 0⟩ = rotationAboutWorldY θ := by
    intro θ
    simp only [glmRotate, hnorm, identity4, rotationAboutWorldY,
      Vec3.smul, Vec4.add, Vec4.smul]
    ext <;> simp
  have hangle : (18 / 5 : ℝ) * radians 50 = Real.pi := by
    rw [radians]; ring
  refine ⟨rfl, h2 (t * radians 50), ?_⟩
  intro hid
  have h5 : rotationAboutWorldY ((18 / 5 : ℝ) * radians 50) = identity4 :=
    (h2 ((18 / 5 : ℝ) * radians 50)).symm.trans hid
  rw [hangle] at h5
  have h6 := congrArg (fun m => m.c0.x) h5
  simp [rotationAboutWorldY, identity4, Real.cos_pi] at h6
  exact absurd h6 (by norm_num)
